import Mathlib

/-!
Shallow embedding of `src/class_scheduler.py`: a fixed store mapping the
16 (class, unit) slots to teacher-name strings, a teacher-cycling update,
four validation rules, the rule-rendering loop and the layout tooltip
texts, together with theorems settling the frozen claims about them.
-/

namespace ClassScheduler

/-- The two course units of each class (`["Micro", "Macro"]` in the source). -/
inductive UnitKind
  | Micro
  | Macro
  deriving DecidableEq, Fintype

/-- `CLASSES` constant of the source (8 fixed class names, Y13 first). -/
def CLASSES : List String := ["Y13a", "Y13b", "Y13c", "Y12a", "Y12b", "Y12c", "Y12d", "Y12e"]

/-- `TEACHERS` constant of the source: the fixed cycling order. -/
def TEACHERS : List String := ["None", "CFE", "AHA", "TOB"]

/-- `TEACHER_COLORS` dict of the source. -/
def TEACHER_COLORS (t : String) : String :=
  if t = "None" then "#CCCCCC"
  else if t = "CFE" then "#1E90FF"
  else if t = "AHA" then "#FF4500"
  else if t = "TOB" then "#32CD32"
  else ""

/-- Name of the class at position `i` of `CLASSES`. -/
def className (i : Fin 8) : String := CLASSES.getD i.val ""

/-- A slot: one of the 16 keys `f"{cls}_{unit}"` of the assignment dict,
identified by class position and unit kind. -/
abbrev Slot := Fin 8 × UnitKind

/-- A snapshot of `st.session_state.assignments`: each of the 16 fixed keys
holds one teacher-name string. -/
abbrev State := Slot → String

/-- The initial assignment dict: every key maps to `"None"`. -/
def init : State := fun _ => "None"

/-- `TEACHERS[(TEACHERS.index(current) + 1) % len(TEACHERS)]` (line 27). -/
def next_teacher (t : String) : String :=
  TEACHERS.getD ((TEACHERS.indexOf t + 1) % TEACHERS.length) "None"

/-- The button-click handler's store write (lines 27-28): set slot `k` to the
next teacher in the fixed cycle, leaving every other slot unchanged. -/
def cycle (s : State) (k : Slot) : State :=
  fun j => if j = k then next_teacher (s k) else s j

/-- `rule_all_units_assigned` (lines 41-43). -/
def rule_all_units_assigned (s : State) : Bool :=
  (List.finRange 8).all fun i =>
    (s (i, UnitKind.Micro) != "None") && (s (i, UnitKind.Macro) != "None")

/-- `rule_different_teachers_in_class` (lines 45-47). -/
def rule_different_teachers_in_class (s : State) : Bool :=
  (List.finRange 8).all fun i => s (i, UnitKind.Micro) != s (i, UnitKind.Macro)

/-- `teacher_class_counts[teacher]` after the loop of lines 52-54: how many of
the 16 slots hold teacher `t`. -/
def teacherCount (s : State) (t : String) : Nat :=
  ((List.finRange 8).map fun i =>
    (if s (i, UnitKind.Micro) = t then 1 else 0) +
    (if s (i, UnitKind.Macro) = t then 1 else 0)).sum

/-- `rule_teacher_class_count` (lines 49-56): the dict of teachers, in
`TEACHERS` order, whose count is outside [5, 6], with their counts. -/
def rule_teacher_class_count (s : State) : List (String × Nat) :=
  TEACHERS.filterMap fun t =>
    if teacherCount s t < 5 ∨ 6 < teacherCount s t then some (t, teacherCount s t) else none

/-- `teacher_class_combinations[t]` after the loop of lines 61-65: the set of
pairs `(cls[0], unit)` over slots assigned to `t`.  Note the source takes
`cls[0]`, the FIRST CHARACTER of the class name. -/
def teacherCombos (s : State) (t : String) : Finset (Char × UnitKind) :=
  (Finset.univ.filter fun k : Slot => s k = t).image fun k => ((className k.1).front, k.2)

/-- `rule_no_teacher_in_all_combinations` (lines 58-67). -/
def rule_no_teacher_in_all_combinations (s : State) : Bool :=
  TEACHERS.all fun t => decide ((teacherCombos s t).card < 4)

/-- A rule result as held in the `check_rules` dict: rules 1, 2, 4 yield a
boolean, rule 3 yields the dict of invalid teachers. -/
inductive RuleResult
  | ofBool (b : Bool)
  | ofMap (m : List (String × Nat))

/-- Python truthiness of a rule result, as used by
`icon = "✅" if is_valid else "❌"` (line 172): a dict is truthy iff non-empty. -/
def truthy : RuleResult → Bool
  | .ofBool b => b
  | .ofMap m => !m.isEmpty

/-- `check_rules` (lines 31-39): the ordered dict of rule description to
rule result. -/
def check_rules (s : State) : List (String × RuleResult) :=
  [("All units in all classes have an assigned teacher",
      .ofBool (rule_all_units_assigned s)),
   ("Every class has a different teacher across Micro and Macro",
      .ofBool (rule_different_teachers_in_class s)),
   ("Every teacher has 5 or 6 classes",
      .ofMap (rule_teacher_class_count s)),
   ("No teacher has a class in all four combinations (Y12 + Y13, Macro and Micro)",
      .ofBool (rule_no_teacher_in_all_combinations s))]

/-- The rendered validation-rules list (lines 171-173): one markdown line
per rule, icon chosen by Python truthiness of the rule's result. -/
def render_rules (s : State) : List String :=
  (check_rules s).map fun r => (if truthy r.2 then "✅" else "❌") ++ " " ++ r.1

/-- Class column of marker `j` of the layout scatter (line 75:
`x_vals.extend([i] * 2)`, so marker `j` sits at x = j / 2). -/
def marker_class (j : Fin 16) : Fin 8 := ⟨j.val / 2, by omega⟩

/-- Unit of marker `j` (line 76: `y_vals.extend([1, 1.25])`, Micro at even
positions, Macro at odd ones). -/
def marker_unit (j : Fin 16) : UnitKind :=
  if j.val % 2 = 0 then UnitKind.Micro else UnitKind.Macro

/-- `text` entry of marker `j` (line 93):
`CLASSES[i % len(CLASSES)] + " Micro"` for even `i`,
`CLASSES[i // 2] + " Macro"` for odd `i`. -/
def marker_text (j : Fin 16) : String :=
  if j.val % 2 = 0 then CLASSES.getD (j.val % CLASSES.length) "" ++ " Micro"
  else CLASSES.getD (j.val / 2) "" ++ " Macro"

/-- The hover text of marker `j` under the template
`"%{text}<br>Teacher: %{marker.color}"` (line 94), with `marker.color` the
assigned teacher's color from line 77. -/
def hover_text (s : State) (j : Fin 16) : String :=
  marker_text j ++ "<br>Teacher: " ++ TEACHER_COLORS (s (marker_class j, marker_unit j))

/-- Key string `f"{cls}_{unit}"` of a slot. -/
def slotKey (i : Fin 8) (u : UnitKind) : String :=
  className i ++ "_" ++ (match u with | UnitKind.Micro => "Micro" | UnitKind.Macro => "Macro")

/-- The assignment dict at its concrete dict level (key-value list in
insertion order), as built by the comprehension on line 11:
`{f"{cls}_{unit}": "None" for cls in CLASSES for unit in ["Micro", "Macro"]}`. -/
def init_store : List (String × String) :=
  (List.finRange 8).flatMap fun i =>
    [(slotKey i UnitKind.Micro, "None"), (slotKey i UnitKind.Macro, "None")]

/-- Dict read `d[k]` (None when the key is missing, where Python would raise). -/
def store_get (d : List (String × String)) (k : String) : Option String :=
  (d.find? fun p => p.1 == k).map Prod.snd

/-- Dict write `d[k] = v`: update in place when the key exists (order kept),
append otherwise — Python dict semantics. -/
def store_set (d : List (String × String)) (k v : String) : List (String × String) :=
  if d.any fun p => p.1 == k then d.map fun p => if p.1 == k then (p.1, v) else p
  else d ++ [(k, v)]

/-- The click handler at dict level (lines 27-28): read the slot's current
teacher, write back the next one in the fixed cycle. -/
def cycle_store (d : List (String × String)) (k : String) : List (String × String) :=
  store_set d k (next_teacher ((store_get d k).getD "None"))

/-- The dict states the program can reach: the initial store followed by any
sequence of button clicks (one per (class, unit) slot). -/
inductive Reachable : List (String × String) → Prop
  | init : Reachable init_store
  | step (d : List (String × String)) (i : Fin 8) (u : UnitKind) :
      Reachable d → Reachable (cycle_store d (slotKey i u))

/-- The 16 key strings of the assignment dict, in insertion order. -/
def assignment_keys : List String :=
  ["Y13a_Micro", "Y13a_Macro", "Y13b_Micro", "Y13b_Macro",
   "Y13c_Micro", "Y13c_Macro", "Y12a_Micro", "Y12a_Macro",
   "Y12b_Micro", "Y12b_Macro", "Y12c_Micro", "Y12c_Macro",
   "Y12d_Micro", "Y12d_Macro", "Y12e_Micro", "Y12e_Macro"]

/-- A concrete assignment giving teacher CFE both units of class Y13a and
both units of class Y12a (all other slots unassigned): CFE then factually
covers all four of {Y12, Y13} × {Micro, Macro}. -/
def s1 : State := fun k =>
  if k.1 = (0 : Fin 8) ∨ k.1 = (3 : Fin 8) then "CFE" else "None"

/-- Reading the just-written slot back: cycling advances it by `next_teacher`. -/
theorem cycle_get (s : State) (k : Slot) : cycle s k k = next_teacher (s k) := by
  simp [cycle]

/-- C1: the claim says that assigning one teacher at least one Y13-Micro,
one Y13-Macro, one Y12-Micro and one Y12-Macro slot makes
`rule_no_teacher_in_all_combinations` return false.  On the state `s1`,
CFE holds both units of Y13a (class 0) and of Y12a (class 3) — all four
combinations of {Y12, Y13} × {Micro, Macro} — yet the rule returns true,
because the source keys the pair set by `cls[0]`, the character `'Y'`,
identical for all eight classes. -/
theorem c1_rule_true_despite_all_combos :
    s1 ((0 : Fin 8), UnitKind.Micro) = "CFE" ∧ s1 ((0 : Fin 8), UnitKind.Macro) = "CFE" ∧
    s1 ((3 : Fin 8), UnitKind.Micro) = "CFE" ∧ s1 ((3 : Fin 8), UnitKind.Macro) = "CFE" ∧
    className 0 = "Y13a" ∧ className 3 = "Y12a" ∧
    rule_no_teacher_in_all_combinations s1 = true := by
  decide

/-- C2: the claim says rule 3's rendered indicator shows pass iff the
returned map is empty.  On the initial state the map is non-empty (every
teacher's count is outside [5, 6]) yet the rendered line for rule 3 carries
the pass icon ✅, because line 172 tests Python truthiness of the dict,
which is true exactly when the dict is NON-empty — the inverse of the claim. -/
theorem c2_rule3_indicator_inverted :
    rule_teacher_class_count init = [("None", 16), ("CFE", 0), ("AHA", 0), ("TOB", 0)] ∧
    (render_rules init)[2]? = some "✅ Every teacher has 5 or 6 classes" := by
  decide

/-- C3: the claim says every marker's hover text identifies that slot's
class.  Marker 2 sits at x-column 1, i.e. it is the Micro slot of class
Y13b, but its text reads "Y13c Micro" (the even branch of line 93 uses
`CLASSES[i % len(CLASSES)]`, i.e. class 2, instead of `i // 2`); the
teacher is also rendered as a color hex code, not a teacher name. -/
theorem c3_tooltip_misidentifies_class :
    marker_class (2 : Fin 16) = (1 : Fin 8) ∧
    marker_unit (2 : Fin 16) = UnitKind.Micro ∧
    className 1 = "Y13b" ∧
    hover_text init (2 : Fin 16) = "Y13c Micro<br>Teacher: #CCCCCC" := by
  decide

/-- C5: `rule_all_units_assigned` is true iff every one of the 16 slots
holds a teacher other than `"None"`, and it is false on the initial state. -/
theorem c5_all_assigned_iff (s : State) :
    (rule_all_units_assigned s = true ↔ ∀ k : Slot, s k ≠ "None") ∧
    rule_all_units_assigned init = false := by
  refine ⟨?_, by decide⟩
  simp only [rule_all_units_assigned, List.all_eq_true, List.mem_finRange, true_implies,
    Bool.and_eq_true, bne_iff_ne, ne_eq]
  constructor
  · rintro h ⟨i, u⟩
    cases u
    · exact (h i).1
    · exact (h i).2
  · intro h i
    exact ⟨h (i, UnitKind.Micro), h (i, UnitKind.Macro)⟩

/-- C6: `rule_different_teachers_in_class` is true iff in every class the
Micro teacher differs from the Macro teacher (`"None"` counts as a normal
value), and in particular it is false on the initial state, where both
units of every class are `"None"`. -/
theorem c6_distinct_within_class_iff (s : State) :
    (rule_different_teachers_in_class s = true ↔
      ∀ i : Fin 8, s (i, UnitKind.Micro) ≠ s (i, UnitKind.Macro)) ∧
    rule_different_teachers_in_class init = false := by
  refine ⟨?_, by decide⟩
  simp [rule_different_teachers_in_class, List.all_eq_true]

/-- C8: cycling one slot changes no other slot: for every state and every
key, every other key's value is untouched. -/
theorem c8_cycle_frame (s : State) (k j : Slot) (h : j ≠ k) : cycle s k j = s j := by
  simp [cycle, h]

/-- Witness for C8 at a concrete state and pair of distinct slots. -/
theorem c8_witness :
    cycle init ((0 : Fin 8), UnitKind.Micro) ((1 : Fin 8), UnitKind.Micro) =
      init ((1 : Fin 8), UnitKind.Micro) :=
  c8_cycle_frame init ((0 : Fin 8), UnitKind.Micro) ((1 : Fin 8), UnitKind.Micro) (by decide)

/-- C7: for every slot whose current teacher is in the fixed list
`["None", "CFE", "AHA", "TOB"]`, cycling advances it to the next teacher in
that fixed order with wraparound, cycling four times restores the original
value, and from the initial state three consecutive clicks on one slot
yield None → CFE → AHA → TOB. -/
theorem c7_cycle_order_period4 (s : State) (k : Slot) (h : s k ∈ TEACHERS) :
    ((s k = "None" → cycle s k k = "CFE") ∧
     (s k = "CFE" → cycle s k k = "AHA") ∧
     (s k = "AHA" → cycle s k k = "TOB") ∧
     (s k = "TOB" → cycle s k k = "None")) ∧
    cycle (cycle (cycle (cycle s k) k) k) k k = s k ∧
    (cycle init k k = "CFE" ∧
     cycle (cycle init k) k k = "AHA" ∧
     cycle (cycle (cycle init k) k) k k = "TOB") := by
  have h4 : s k = "None" ∨ s k = "CFE" ∨ s k = "AHA" ∨ s k = "TOB" := by
    simpa [TEACHERS] using h
  refine ⟨⟨?_, ?_, ?_, ?_⟩, ?_, ?_, ?_, ?_⟩
  · intro hk; simp only [cycle_get, hk]; decide
  · intro hk; simp only [cycle_get, hk]; decide
  · intro hk; simp only [cycle_get, hk]; decide
  · intro hk; simp only [cycle_get, hk]; decide
  · obtain hk | hk | hk | hk := h4 <;> simp only [cycle_get, hk] <;> decide
  · simp only [cycle_get, init]; decide
  · simp only [cycle_get, init]; decide
  · simp only [cycle_get, init]; decide

/-- Witness for C7: four clicks on Y13a's Micro slot from the initial state
restore its original teacher. -/
theorem c7_witness :
    cycle (cycle (cycle (cycle init ((0 : Fin 8), UnitKind.Micro))
        ((0 : Fin 8), UnitKind.Micro)) ((0 : Fin 8), UnitKind.Micro))
        ((0 : Fin 8), UnitKind.Micro) ((0 : Fin 8), UnitKind.Micro) =
      init ((0 : Fin 8), UnitKind.Micro) :=
  (c7_cycle_order_period4 init ((0 : Fin 8), UnitKind.Micro) (by decide)).2.1

/-- C4: for every state whose values lie in the teacher list, the pairs in
`rule_teacher_class_count`'s result are exactly the teachers of the fixed
list whose slot count over all 16 slots is outside [5, 6], each paired
with that count, and the result is empty iff every teacher's count lies
in [5, 6]. -/
theorem c4_load_balance_spec (s : State) (hs : ∀ k : Slot, s k ∈ TEACHERS) :
    (∀ t c, (t, c) ∈ rule_teacher_class_count s ↔
      (t ∈ TEACHERS ∧ c = teacherCount s t ∧
        (teacherCount s t < 5 ∨ 6 < teacherCount s t))) ∧
    (rule_teacher_class_count s = [] ↔
      ∀ t ∈ TEACHERS, 5 ≤ teacherCount s t ∧ teacherCount s t ≤ 6) := by
  constructor
  · intro t c
    simp only [rule_teacher_class_count, List.mem_filterMap]
    constructor
    · rintro ⟨a, ha, hfa⟩
      split at hfa
      · obtain ⟨rfl, rfl⟩ := Prod.mk.injEq .. ▸ Option.some.injEq .. ▸ hfa
        · simp_all
      · exact absurd hfa (by simp)
    · rintro ⟨ht, rfl, hcond⟩
      exact ⟨t, ht, by rw [if_pos hcond]⟩
  · simp only [rule_teacher_class_count]
    rw [List.filterMap_eq_nil_iff]
    constructor
    · intro hall t ht
      by_cases hc : teacherCount s t < 5 ∨ 6 < teacherCount s t
      · have := hall t ht
        rw [if_pos hc] at this
        exact absurd this (by simp)
      · omega
    · intro hall t ht
      have := hall t ht
      rw [if_neg (by omega)]

/-- Witness for C4 on the initial state: the unassigned pseudo-teacher is
reported with its count of 16. -/
theorem c4_witness : ("None", 16) ∈ rule_teacher_class_count init :=
  ((c4_load_balance_spec init (fun _ => by change "None" ∈ TEACHERS; decide)).1
    "None" 16).mpr (by decide)

/-- Every class name starts with the character `'Y'`, so `cls[0]` never
distinguishes Y12 from Y13. -/
theorem className_front (i : Fin 8) : (className i).front = 'Y' := by
  fin_cases i <;> decide

/-- C10: for every state whose values lie in the fixed teacher list, each
teacher's collected set of `(cls[0], unit)` pairs has at most 2 elements —
`cls[0]` is `'Y'` for all eight classes — so
`rule_no_teacher_in_all_combinations` always returns true. -/
theorem c10_rule4_always_true (s : State) (hs : ∀ k : Slot, s k ∈ TEACHERS) :
    (∀ t, (teacherCombos s t).card ≤ 2) ∧
    rule_no_teacher_in_all_combinations s = true := by
  have hcard : ∀ t, (teacherCombos s t).card ≤ 2 := by
    intro t
    have hsub : teacherCombos s t ⊆
        ({('Y', UnitKind.Micro), ('Y', UnitKind.Macro)} : Finset (Char × UnitKind)) := by
      intro x hx
      simp only [teacherCombos, Finset.mem_image, Finset.mem_filter, Finset.mem_univ,
        true_and] at hx
      obtain ⟨k, -, rfl⟩ := hx
      rw [className_front k.1]
      cases k.2 <;> simp
    calc (teacherCombos s t).card
        ≤ ({('Y', UnitKind.Micro), ('Y', UnitKind.Macro)} : Finset (Char × UnitKind)).card :=
          Finset.card_le_card hsub
      _ ≤ 2 := by decide
  refine ⟨hcard, ?_⟩
  simp only [rule_no_teacher_in_all_combinations, List.all_eq_true, decide_eq_true_eq]
  intro t ht
  have := hcard t
  omega

/-- Witness for C10 at the initial state. -/
theorem c10_witness : rule_no_teacher_in_all_combinations init = true :=
  (c10_rule4_always_true init (fun _ => by change "None" ∈ TEACHERS; decide)).2

/-- The cycle-successor of any string is one of the four fixed teachers. -/
theorem next_teacher_mem (t : String) : next_teacher t ∈ TEACHERS := by
  have hlt : (TEACHERS.indexOf t + 1) % TEACHERS.length < TEACHERS.length :=
    Nat.mod_lt _ (by decide)
  rw [next_teacher, List.getD_eq_getElem _ _ hlt]
  exact List.getElem_mem hlt

/-- Every button key is one of the 16 fixed dict keys. -/
theorem slotKey_mem (i : Fin 8) (u : UnitKind) : slotKey i u ∈ assignment_keys := by
  fin_cases i <;> cases u <;> decide

/-- C9: every reachable assignment dict has exactly the 16 fixed keys, in
the initialization order, each occurring once, and every value is one of
the four fixed teacher identifiers — initialization establishes this and
every cycle preserves it. -/
theorem c9_store_invariant (d : List (String × String)) (h : Reachable d) :
    d.map Prod.fst = assignment_keys ∧ (d.map Prod.fst).Nodup ∧
    ∀ p ∈ d, p.2 ∈ TEACHERS := by
  induction h with
  | init =>
    refine ⟨by decide, by decide, ?_⟩
    intro p hp
    fin_cases hp <;> decide
  | step d i u _ ih =>
    obtain ⟨hkeys, hnodup, hvals⟩ := ih
    have hk : slotKey i u ∈ d.map Prod.fst := by
      rw [hkeys]; exact slotKey_mem i u
    obtain ⟨q, hq, hqk⟩ := List.mem_map.mp hk
    have hany : (d.any fun p => p.1 == slotKey i u) = true := by
      rw [List.any_eq_true]
      exact ⟨q, hq, by simp [hqk]⟩
    have hset : cycle_store d (slotKey i u) =
        d.map fun p => if p.1 == slotKey i u then (p.1, next_teacher ((store_get d (slotKey i u)).getD "None")) else p := by
      rw [cycle_store, store_set, if_pos hany]
    have hfst : (cycle_store d (slotKey i u)).map Prod.fst = d.map Prod.fst := by
      rw [hset, List.map_map]
      refine List.map_congr_left ?_
      intro p _
      simp only [Function.comp_apply]
      split <;> rfl
    refine ⟨hfst.trans hkeys, by rw [hfst]; exact hnodup, ?_⟩
    intro p hp
    rw [hset] at hp
    obtain ⟨r, hr, hrp⟩ := List.mem_map.mp hp
    by_cases hrk : (r.1 == slotKey i u) = true
    · rw [if_pos hrk] at hrp
      rw [← hrp]
      exact next_teacher_mem _
    · rw [if_neg hrk] at hrp
      exact hrp ▸ hvals r hr

/-- Witness for C9 one click deep: after cycling Y13a's Micro slot from the
initial store, the key list is still exactly the 16 fixed keys. -/
theorem c9_witness :
    (cycle_store init_store (slotKey 0 UnitKind.Micro)).map Prod.fst = assignment_keys :=
  (c9_store_invariant (cycle_store init_store (slotKey 0 UnitKind.Micro))
    (Reachable.step init_store 0 UnitKind.Micro Reachable.init)).1

end ClassScheduler
